import Mathlib

/-!
Verification of the vm-operator network-interface provisioning engine and its
surrounding controllers.

The repository sources provide: the test suite of the network package
(`CreateAndWaitForNetworkInterfaces` and friends), the `AddAnnotations` helper,
and the provider-ConfigMap `ContentSource` reconciler.  The network package
implementation itself is not among the provided sources, so it is modelled
from the specification (marked `Modelled from the spec:` below); the
`AddAnnotations` helper and the ConfigMap reconciler are embedded directly
from their Go sources.
-/

deriving instance DecidableEq for Except

namespace VMOperator

/-! ## String and number helpers (decimal/hex rendering, character parsing) -/

/-- Splits a character list on a separator character; `splitChar '.' "a.b" = [[a],[b]]`. -/
def splitChar (sep : Char) : List Char → List (List Char)
  | [] => [[]]
  | c :: rest =>
    let r := splitChar sep rest
    if c = sep then [] :: r
    else
      match r with
      | g :: gs => (c :: g) :: gs
      | [] => [[c]]

/-- Renders a natural number below 1000 in decimal. -/
def decSmall (n : Nat) : String :=
  let ds := ([n / 100 % 10, n / 10 % 10, n % 10] : List Nat)
  match ds.dropWhile (· == 0) with
  | [] => "0"
  | ds => String.mk (ds.map (fun d => Char.ofNat (48 + d)))

/-- Renders a hex digit (lowercase, as Go's formatter does). -/
def hexDigit (n : Nat) : Char :=
  if n < 10 then Char.ofNat (48 + n) else Char.ofNat (87 + n)

/-- Renders one 16-bit IPv6 group in lowercase hex without leading zeros. -/
def groupHex (g : Nat) : String :=
  let ds := ([g / 4096 % 16, g / 256 % 16, g / 16 % 16, g % 16] : List Nat)
  match ds.dropWhile (· == 0) with
  | [] => "0"
  | ds => String.mk (ds.map hexDigit)

/-- Value of a hex digit character, accepting both cases. -/
def hexVal (c : Char) : Option Nat :=
  if c.isDigit then some (c.toNat - 48)
  else if decide ('a' ≤ c ∧ c ≤ 'f') then some (c.toNat - 87)
  else if decide ('A' ≤ c ∧ c ≤ 'F') then some (c.toNat - 55)
  else none

/-! ## IP address parsing and canonical formatting -/

/-- Parses one dotted-decimal IPv4 octet (no leading zeros, at most 255). -/
def parseDecOctet (g : List Char) : Option Nat :=
  if g.isEmpty then none
  else if !g.all Char.isDigit then none
  else if g.length > 3 then none
  else if g.length > 1 && g.head? == some '0' then none
  else
    let v := g.foldl (fun a c => a * 10 + (c.toNat - 48)) 0
    if v ≤ 255 then some v else none

/-- Parses a dotted-decimal IPv4 literal into its 32-bit value. -/
def parseIPv4 (s : String) : Option Nat :=
  match splitChar '.' s.data with
  | [a, b, c, d] =>
    match parseDecOctet a, parseDecOctet b, parseDecOctet c, parseDecOctet d with
    | some x, some y, some z, some w => some (((x * 256 + y) * 256 + z) * 256 + w)
    | _, _, _, _ => none
  | _ => none

/-- Parses one IPv6 group of 1 to 4 hex digits. -/
def parseHexGroup (g : List Char) : Option Nat :=
  if g.length = 0 || g.length > 4 then none
  else (g.mapM hexVal).map (List.foldl (fun a d => a * 16 + d) 0)

/-- Locates the first `::` in an IPv6 literal, returning the characters on
each side, or `none` when the literal has no `::`. -/
def splitDoubleColon : List Char → Option (List Char × List Char)
  | ':' :: ':' :: rest => some ([], rest)
  | c :: rest => (splitDoubleColon rest).map (fun p => (c :: p.1, p.2))
  | [] => none

/-- Folds a list of 16-bit groups into a 128-bit value. -/
def combine16 (gs : List Nat) : Nat :=
  gs.foldl (fun a g => a * 65536 + g) 0

/-- Parses a full or `::`-abbreviated IPv6 literal into its 128-bit value. -/
def parseIPv6 (s : String) : Option Nat :=
  let cs := s.data
  match splitDoubleColon cs with
  | none =>
    let gs := splitChar ':' cs
    if gs.length = 8 then (gs.mapM parseHexGroup).map combine16 else none
  | some (l, r) =>
    let gl := if l.isEmpty then [] else splitChar ':' l
    let gr := if r.isEmpty then [] else splitChar ':' r
    if gl.length + gr.length ≤ 7 then
      match gl.mapM parseHexGroup, gr.mapM parseHexGroup with
      | some a, some b =>
        some (combine16 (a ++ List.replicate (8 - (a.length + b.length)) 0 ++ b))
      | _, _ => none
    else none

/-- Renders a 32-bit value in dotted-decimal notation. -/
def formatIPv4 (v : Nat) : String :=
  decSmall (v / 16777216 % 256) ++ "." ++ decSmall (v / 65536 % 256) ++ "." ++
    decSmall (v / 256 % 256) ++ "." ++ decSmall (v % 256)

/-- The eight 16-bit groups of a 128-bit value, most significant first. -/
def ipv6Groups (v : Nat) : List Nat :=
  (List.range 8).map (fun k => v / 65536 ^ (7 - k) % 65536)

/-- Length of the run of zero groups starting at index `i`. -/
def zeroRunLen (gs : List Nat) (i : Nat) : Nat :=
  ((gs.drop i).takeWhile (· == 0)).length

/-- Leftmost longest run of at least two zero groups, as `(start, length)`,
following RFC 5952 and Go's formatter. -/
def bestZeroRun (gs : List Nat) : Option (Nat × Nat) :=
  (List.range gs.length).foldl
    (fun best i =>
      let l := zeroRunLen gs i
      if decide (2 ≤ l) && (match best with | none => true | some p => decide (p.2 < l)) then
        some (i, l)
      else best)
    none

/-- Joins group strings with `:` separators. -/
def joinColon (l : List String) : String :=
  String.intercalate ":" l

/-- Renders a 128-bit value in canonical compressed IPv6 notation
(lowercase hex, longest zero run replaced by `::`). -/
def formatIPv6 (v : Nat) : String :=
  let gs := ipv6Groups v
  match bestZeroRun gs with
  | none => joinColon (gs.map groupHex)
  | some (s, l) =>
    joinColon ((gs.take s).map groupHex) ++ "::" ++ joinColon ((gs.drop (s + l)).map groupHex)

/-- Converts a `w`-bit netmask value to its prefix length, or `none` when the
mask is not a contiguous run of leading ones. -/
def maskPrefixLen (w mask : Nat) : Option Nat :=
  (List.range (w + 1)).find? (fun p => mask == 2 ^ w - 2 ^ (w - p))

/-! ## Error taxonomy and the address normalizer -/

/-- The error taxonomy of the network engine (spec section 7). -/
inductive NetworkError where
  | networkNotFound (networkName : String)
  | notReady (interfaceName : String)
  | invalidAddress (detail : String)
  | backingResolution (networkID : String)
deriving DecidableEq

/-- User-visible message of each error. -/
def NetworkError.message : NetworkError → String
  | .networkNotFound n => "unable to find named network " ++ n
  | .notReady i => "network interface is not ready yet: " ++ i
  | .invalidAddress d => "invalid address or mask: " ++ d
  | .backingResolution n => "unable to resolve backing for network " ++ n

/-- Normalized per-address result: CIDR string, family flag, gateway. -/
structure IPConfig where
  IPCIDR : String
  IsIPv4 : Bool
  Gateway : String
deriving DecidableEq

/-- Modelled from the spec: the Address/CIDR Normalizer (spec section 4.1);
the network package source is not among the provided files.  Converts a raw
address plus subnet-mask pair into canonical CIDR notation with an
address-family flag, failing with `invalidAddress` when the mask cannot be
parsed or is not a valid prefix for the address family. -/
def NormalizeIPConfig (ip subnetMask gateway : String) : Except NetworkError IPConfig :=
  match parseIPv4 ip with
  | some v4 =>
    match parseIPv4 subnetMask with
    | some m =>
      match maskPrefixLen 32 m with
      | some p =>
        .ok { IPCIDR := formatIPv4 v4 ++ "/" ++ decSmall p, IsIPv4 := true, Gateway := gateway }
      | none => .error (.invalidAddress subnetMask)
    | none => .error (.invalidAddress subnetMask)
  | none =>
    match parseIPv6 ip with
    | some v6 =>
      match parseIPv6 subnetMask with
      | some m =>
        match maskPrefixLen 128 m with
        | some p =>
          .ok { IPCIDR := formatIPv6 v6 ++ "/" ++ decSmall p, IsIPv4 := false, Gateway := gateway }
        | none => .error (.invalidAddress subnetMask)
      | none => .error (.invalidAddress subnetMask)
    | none => .error (.invalidAddress ip)

/-! ## Network engine data model (spec section 3) -/

/-- Desired interface, as supplied by the caller (spec section 3). -/
structure InterfaceSpec where
  Name : String
  NetworkName : String
  DHCP6 : Bool
deriving DecidableEq

/-- Raw per-address status entry reported by a backend request object. -/
structure RawIPEntry where
  IP : String
  Gateway : String
  SubnetMask : String
deriving DecidableEq

/-- Backend request object (NetOP `NetworkInterface` or NCP
`VirtualNetworkInterface`): identity plus backend-owned status.  `readyAt` is
the poll step at which the external reconciler marks the readiness condition
`True`; `none` means the condition never becomes `True` during the call. -/
structure CRObject where
  name : String
  networkName : String
  networkID : String
  macAddress : String
  externalID : String
  ipEntries : List RawIPEntry
  readyAt : Option Nat
deriving DecidableEq

/-- A network visible in the virtualization inventory, for the Named backend. -/
structure NamedNetwork where
  name : String
  ref : String
deriving DecidableEq

/-- A portgroup in the inventory, used for backing resolution.  `lsUUID` is
the NSX logical-switch UUID of its backing when it represents an overlay
segment; `cluster` is the compute cluster it belongs to. -/
structure Portgroup where
  ref : String
  lsUUID : Option String
  cluster : String
deriving DecidableEq

/-- The active network environment (spec section 3). -/
inductive NetworkEnvType where
  | named
  | vds
  | nsxt
deriving DecidableEq

/-- The external world a call observes: active environment, inventory, and
the store of backend request objects. -/
structure NetworkWorld where
  env : NetworkEnvType
  namedNetworks : List NamedNetwork
  store : List CRObject
  portgroups : List Portgroup

/-- Retry configuration of the readiness waiter.  `RetryTimeout` is the
process-wide tunable of the source (tests set it to one second). -/
structure WaitConfig where
  RetryTimeout : Nat
  pollInterval : Nat

/-- Number of poll iterations the waiter performs before giving up:
the first count whose total elapsed time reaches `RetryTimeout`. -/
def maxPolls (cfg : WaitConfig) : Nat :=
  (cfg.RetryTimeout + cfg.pollInterval - 1) / cfg.pollInterval

/-! ## Backend resource naming (spec section 4.2) -/

/-- Modelled from the spec: `NetOPCRName` of the network package (not among
the provided sources).  Deterministic name of the NetOP request object from
VM, network and interface name; the legacy schema generation derives the name
without the interface name. -/
def NetOPCRName (vmName networkName interfaceName : String) (isLegacy : Bool) : String :=
  if isLegacy then vmName ++ "-" ++ networkName
  else vmName ++ "-" ++ networkName ++ "-" ++ interfaceName

/-- Modelled from the spec: `NCPCRName` of the network package (not among
the provided sources).  Deterministic name of the NCP request object, with
the same legacy-generation rule as `NetOPCRName`. -/
def NCPCRName (vmName networkName interfaceName : String) (isLegacy : Bool) : String :=
  if isLegacy then vmName ++ "-" ++ networkName
  else vmName ++ "-" ++ networkName ++ "-" ++ interfaceName

/-- Looks up a backend request object by name. -/
def findCR (store : List CRObject) (nm : String) : Option CRObject :=
  store.find? (fun o => o.name == nm)

/-- A freshly created request object: spec filled in, status empty, readiness
owned by the external backend (never `True` within this call). -/
def newCR (nm networkName : String) : CRObject :=
  { name := nm, networkName := networkName, networkID := "", macAddress := "",
    externalID := "", ipEntries := [], readyAt := none }

/-- Modelled from the spec: the get-or-create resolve step of the VDS and NSX
adapters (sections 4.2 and 4.3; source not among the provided files).  Probes
the legacy-generation name first, then the current-generation name, and only
creates (under the current-generation name) when neither exists. -/
def resolveCR (legacyName currentName networkName : String) (store : List CRObject) :
    List CRObject × String :=
  match findCR store legacyName with
  | some _ => (store, legacyName)
  | none =>
    match findCR store currentName with
    | some _ => (store, currentName)
    | none => (store ++ [newCR currentName networkName], currentName)

/-- Modelled from the spec: per-interface resolve (section 4.5 step 1).  For
the Named environment this is an inventory lookup that fails with
`networkNotFound`; for VDS and NSX it is the idempotent get-or-create of the
backend request object.  Returns the updated store and the request-object
name (or, for Named, the inventory reference). -/
def resolveOne (env : NetworkEnvType) (vmName : String) (namedNetworks : List NamedNetwork)
    (spec : InterfaceSpec) (store : List CRObject) :
    List CRObject × Except NetworkError String :=
  match env with
  | .named =>
    match namedNetworks.find? (fun n => n.name == spec.NetworkName) with
    | some n => (store, .ok n.ref)
    | none => (store, .error (.networkNotFound spec.NetworkName))
  | .vds =>
    let r := resolveCR (NetOPCRName vmName spec.NetworkName spec.Name true)
      (NetOPCRName vmName spec.NetworkName spec.Name false) spec.NetworkName store
    (r.1, .ok r.2)
  | .nsxt =>
    let r := resolveCR (NCPCRName vmName spec.NetworkName spec.Name true)
      (NCPCRName vmName spec.NetworkName spec.Name false) spec.NetworkName store
    (r.1, .ok r.2)

/-- Modelled from the spec: the sequential resolve phase over all desired
interfaces (section 4.5 step 1); the first resolve failure short-circuits the
whole call before any waiting begins. -/
def resolveAll (env : NetworkEnvType) (vmName : String) (namedNetworks : List NamedNetwork) :
    List InterfaceSpec → List CRObject →
    List CRObject × Except NetworkError (List (InterfaceSpec × String))
  | [], store => (store, .ok [])
  | spec :: rest, store =>
    match resolveOne env vmName namedNetworks spec store with
    | (store1, .error e) => (store1, .error e)
    | (store1, .ok ref) =>
      match resolveAll env vmName namedNetworks rest store1 with
      | (store2, .error e) => (store2, .error e)
      | (store2, .ok l) => (store2, .ok ((spec, ref) :: l))

/-! ## Readiness waiter (spec section 4.4) -/

/-- Whether the readiness condition reads `True` at poll step `i`. -/
def isReadyAtPoll (readyAt : Option Nat) (i : Nat) : Bool :=
  match readyAt with
  | some t => decide (t ≤ i)
  | none => false

/-- Modelled from the spec: the bounded-retry polling loop of the Readiness
Waiter (section 4.4; source not among the provided files).  Polls from step
`i` with the given fuel; returns whether the object became ready and the
total number of polls performed. -/
def waitLoop (readyAt : Option Nat) : Nat → Nat → Bool × Nat
  | i, 0 => (false, i)
  | i, fuel + 1 =>
    if isReadyAtPoll readyAt i then (true, i + 1) else waitLoop readyAt (i + 1) fuel

/-! ## Result shapes and the orchestrator (spec sections 3 and 4.5) -/

/-- Normalized per-interface result (spec section 3). -/
structure NetworkInterfaceResult where
  Name : String
  MacAddress : String
  ExternalID : String
  NetworkID : String
  Backing : Option String
  DHCP4 : Bool
  DHCP6 : Bool
  IPConfigs : List IPConfig
deriving DecidableEq

/-- Ordered collection of per-interface results. -/
structure NetworkInterfaceResults where
  Results : List NetworkInterfaceResult
deriving DecidableEq

/-- Runs the address normalizer over each reported IP entry, surfacing the
first `invalidAddress` failure. -/
def normalizeEntries : List RawIPEntry → Except NetworkError (List IPConfig)
  | [] => .ok []
  | e :: rest =>
    match NormalizeIPConfig e.IP e.SubnetMask e.Gateway with
    | .error err => .error err
    | .ok c =>
      match normalizeEntries rest with
      | .error err => .error err
      | .ok cs => .ok (c :: cs)

/-- Modelled from the spec: `ResolveBacking` of the backend adapters (section
4.3; source not among the provided files).  VDS matches the reported network
identifier against a portgroup reference; NSX requires a cluster scope and
matches the logical-switch UUID against a portgroup backing in that cluster,
returning the not-yet-resolvable outcome (`none`, no error) without a scope. -/
def resolveBacking (env : NetworkEnvType) (portgroups : List Portgroup)
    (clusterScope : Option String) (networkID : String) :
    Except NetworkError (Option String) :=
  match env with
  | .named => .ok (some networkID)
  | .vds =>
    match portgroups.find? (fun p => p.ref == networkID) with
    | some p => .ok (some p.ref)
    | none => .error (.backingResolution networkID)
  | .nsxt =>
    match clusterScope with
    | none => .ok none
    | some c =>
      match portgroups.find? (fun p => p.cluster == c && p.lsUUID == some networkID) with
      | some p => .ok (some p.ref)
      | none => .error (.backingResolution networkID)

/-- Outcome of processing one resolved interface: its result or error, the
number of waiter polls it used, and whether the waiter was invoked. -/
structure IfaceOutcome where
  res : Except NetworkError NetworkInterfaceResult
  polls : Nat
  waits : Nat

/-- Modelled from the spec: the per-interface wait, extract and normalize
phase (section 4.5 steps 2 and 3; source not among the provided files).  The
Named backend is immediately ready and never invokes the waiter; VDS and NSX
wait on the request object's readiness condition, then project its status
through the address normalizer and backing resolution. -/
def processOne (env : NetworkEnvType) (portgroups : List Portgroup)
    (clusterScope : Option String) (cfg : WaitConfig) (store : List CRObject)
    (p : InterfaceSpec × String) : IfaceOutcome :=
  match env with
  | .named =>
    { res := .ok { Name := p.1.Name, MacAddress := "", ExternalID := "", NetworkID := p.2,
                   Backing := some p.2, DHCP4 := true, DHCP6 := p.1.DHCP6, IPConfigs := [] },
      polls := 0, waits := 0 }
  | _ =>
    match findCR store p.2 with
    | none => { res := .error (.notReady p.1.Name), polls := 0, waits := 1 }
    | some cr =>
      match waitLoop cr.readyAt 0 (maxPolls cfg) with
      | (false, n) => { res := .error (.notReady p.1.Name), polls := n, waits := 1 }
      | (true, n) =>
        match normalizeEntries cr.ipEntries with
        | .error e => { res := .error e, polls := n, waits := 1 }
        | .ok ipcs =>
          match resolveBacking env portgroups clusterScope cr.networkID with
          | .error e => { res := .error e, polls := n, waits := 1 }
          | .ok backing =>
            { res := .ok { Name := p.1.Name, MacAddress := cr.macAddress,
                           ExternalID := cr.externalID, NetworkID := cr.networkID,
                           Backing := backing, DHCP4 := true, DHCP6 := p.1.DHCP6,
                           IPConfigs := ipcs },
              polls := n, waits := 1 }

/-- First error among the per-interface outcomes (first failure wins). -/
def firstErr : List (Except NetworkError NetworkInterfaceResult) → Option NetworkError
  | [] => none
  | .error e :: _ => some e
  | .ok _ :: rest => firstErr rest

/-- The successful results, in order. -/
def okResults : List (Except NetworkError NetworkInterfaceResult) → List NetworkInterfaceResult
  | [] => []
  | .error _ :: rest => okResults rest
  | .ok r :: rest => r :: okResults rest

/-- Maximum of a list of naturals (zero for the empty list). -/
def maxNat : List Nat → Nat
  | [] => 0
  | n :: rest => max n (maxNat rest)

/-- Observable outcome of one `CreateAndWaitForNetworkInterfaces` call:
the result collection and error of the Go signature, plus the final request
object store, the number of waiter invocations, and the modelled elapsed
wall-clock time (poll interval times the longest concurrent wait). -/
structure CallOutcome where
  results : NetworkInterfaceResults
  error : Option NetworkError
  store : List CRObject
  waits : Nat
  elapsed : Nat
deriving DecidableEq

/-- Modelled from the spec: `CreateAndWaitForNetworkInterfaces` of the
network package (section 4.5; only its test suite is among the provided
sources).  Resolves every desired interface sequentially, short-circuiting on
the first resolve failure; then waits on all interfaces (concurrently, so
elapsed time is the longest single wait), extracts and normalizes each ready
interface, and aggregates: on any failure the call returns an empty result
set with the first error, otherwise one result per spec in input order. -/
def CreateAndWaitForNetworkInterfaces (w : NetworkWorld) (cfg : WaitConfig) (vmName : String)
    (clusterScope : Option String) (specs : List InterfaceSpec) : CallOutcome :=
  match resolveAll w.env vmName w.namedNetworks specs w.store with
  | (store1, .error e) =>
    { results := ⟨[]⟩, error := some e, store := store1, waits := 0, elapsed := 0 }
  | (store1, .ok resolved) =>
    let outs := resolved.map (processOne w.env w.portgroups clusterScope cfg store1)
    let elapsed := cfg.pollInterval * maxNat (outs.map IfaceOutcome.polls)
    let waits := (outs.map IfaceOutcome.waits).sum
    match firstErr (outs.map IfaceOutcome.res) with
    | some e =>
      { results := ⟨[]⟩, error := some e, store := store1, waits := waits, elapsed := elapsed }
    | none =>
      { results := ⟨okResults (outs.map IfaceOutcome.res)⟩, error := none, store := store1,
        waits := waits, elapsed := elapsed }

/-! ## Generic helpers for the claim statements and proofs -/

/-- The request-object name of the active environment's namer. -/
def crNameFor (env : NetworkEnvType) (vm net ifn : String) (isLegacy : Bool) : String :=
  match env with
  | .named => ""
  | .vds => NetOPCRName vm net ifn isLegacy
  | .nsxt => NCPCRName vm net ifn isLegacy

/-- Boolean prefix test on character lists. -/
def listIsPrefix : List Char → List Char → Bool
  | [], _ => true
  | _ :: _, [] => false
  | a :: as, b :: bs => a == b && listIsPrefix as bs

/-- Boolean substring test: `sub` occurs somewhere in `s`. -/
def strContainsSub (s sub : String) : Bool :=
  (List.range (s.length + 1)).any (fun i => listIsPrefix sub.data (s.data.drop i))

/-- An NCP request object that the external reconciler has already filled in
and marked ready at the first poll. -/
def nsxtReadyCR (vm net ifn uuid mac ext : String) : CRObject :=
  { name := NCPCRName vm net ifn false, networkName := net, networkID := uuid,
    macAddress := mac, externalID := ext, ipEntries := [], readyAt := some 0 }

/-! ## AddAnnotations (embedded from src/pkg/vmoperator.go) -/

/-- Base FQDN for the vmoperator. -/
def VmOperatorKey : String := "vmoperator.vmware.com"

/-- VM Operator version key. -/
def VmOperatorVersionKey : String := "vmoperator.vmware.com/version"

/-- Go map read: first entry with the key, if any. -/
def mapGet : List (String × String) → String → Option String
  | [], _ => none
  | (k1, v1) :: rest, k => if k1 == k then some v1 else mapGet rest k

/-- Go map write `m[k] = v` on a non-nil map: replaces the entry for `k` or
appends one. -/
def mapSet : List (String × String) → String → String → List (String × String)
  | [], k, v => [(k, v)]
  | (k1, v1) :: rest, k, v =>
    if k1 == k then (k, v) :: rest else (k1, v1) :: mapSet rest k v

/-- Object metadata as `AddAnnotations` observes it.  `annotations = none` is
Go's nil map — what `GetAnnotations` returns for a fresh object — which is
distinct from an empty map. -/
structure ObjectMeta where
  name : String
  annotations : Option (List (String × String))
deriving DecidableEq

/-- `GetAnnotations` returns the annotations field unchanged. -/
def GetAnnotations (m : ObjectMeta) : Option (List (String × String)) :=
  m.annotations

/-- `AddAnnotations` of src/pkg/vmoperator.go: reads the annotations map with
`GetAnnotations` and assigns the version key.  In Go the assignment
`annotations[VmOperatorVersionKey] = "v1"` faults (panics) on a nil map, so
the embedding returns `none` in that case. -/
def AddAnnotations (m : ObjectMeta) : Option ObjectMeta :=
  match GetAnnotations m with
  | none => none
  | some a => some { m with annotations := some (mapSet a VmOperatorVersionKey "v1") }

/-! ## Provider ConfigMap ContentSource reconciler (embedded from the
providerconfigmap controller source) -/

/-- Label key distinguishing a TKG ContentSource from a VM-service one. -/
def TKGContentSourceLabelKey : String := "ContentSourceType"

/-- Label value marking a TKG ContentSource. -/
def TKGContentSourceLabelValue : String := "TKGContentSource"

/-- Label whose presence marks a user workload namespace. -/
def UserWorkloadNamespaceLabel : String := "vSphereClusterID"

/-- A ContentSource resource: cluster-scoped name plus labels. -/
structure ContentSource where
  name : String
  labels : List (String × String)
deriving DecidableEq

/-- A ContentLibraryProvider resource. -/
structure ContentLibraryProvider where
  name : String
  uuid : String
deriving DecidableEq

/-- A ContentSourceBinding resource (namespaced). -/
structure ContentSourceBinding where
  name : String
  nsName : String
  refName : String
deriving DecidableEq

/-- A namespace with its labels. -/
structure K8sNamespace where
  name : String
  labels : List (String × String)
deriving DecidableEq

/-- The slice of cluster state the ConfigMap reconciler reads and writes. -/
structure ClusterState where
  contentSources : List ContentSource
  clProviders : List ContentLibraryProvider
  csBindings : List ContentSourceBinding
  namespaces : List K8sNamespace
deriving DecidableEq

/-- Whether a ContentSource carries the TKG label. -/
def hasTKGLabel (cs : ContentSource) : Bool :=
  mapGet cs.labels TKGContentSourceLabelKey == some TKGContentSourceLabelValue

/-- Deletion of a cluster-scoped ContentSource by name. -/
def deleteCS (nm : String) (l : List ContentSource) : List ContentSource :=
  l.filter (fun cs => !(cs.name == nm))

/-- The delete loop of `ReconcileNormal`: for each listed ContentSource whose
name differs from the configured library UUID, delete it from the store. -/
def deleteStale (u : String) : List ContentSource → List ContentSource → List ContentSource
  | [], l => l
  | cs :: rest, l => deleteStale u rest (if cs.name == u then l else deleteCS cs.name l)

/-- `CreateOrUpdate` semantics for a ContentSource: update the object with the
matching name, or create it. -/
def upsertCS (cs : ContentSource) (l : List ContentSource) : List ContentSource :=
  if l.any (fun c => c.name == cs.name) then
    l.map (fun c => if c.name == cs.name then cs else c)
  else l ++ [cs]

/-- `CreateOrUpdate` semantics for a ContentLibraryProvider. -/
def upsertCLP (p : ContentLibraryProvider) (l : List ContentLibraryProvider) :
    List ContentLibraryProvider :=
  if l.any (fun c => c.name == p.name) then
    l.map (fun c => if c.name == p.name then p else c)
  else l ++ [p]

/-- `CreateOrUpdate` semantics for a namespaced ContentSourceBinding. -/
def upsertBinding (b : ContentSourceBinding) (l : List ContentSourceBinding) :
    List ContentSourceBinding :=
  if l.any (fun c => c.name == b.name && c.nsName == b.nsName) then
    l.map (fun c => if c.name == b.name && c.nsName == b.nsName then b else c)
  else l ++ [b]

/-- `ConfigMapReconciler.CreateOrUpdateContentSourceResources`: creates or
updates the ContentLibraryProvider named after the content library UUID, then
the ContentSource of the same name carrying the TKG label and referring to
the provider. -/
def CreateOrUpdateContentSourceResources (clUUID : String) (s : ClusterState) : ClusterState :=
  let s1 := { s with clProviders := upsertCLP ⟨clUUID, clUUID⟩ s.clProviders }
  let tkgCS : ContentSource :=
    ⟨clUUID, [(TKGContentSourceLabelKey, TKGContentSourceLabelValue)]⟩
  { s1 with contentSources := upsertCS tkgCS s1.contentSources }

/-- `ConfigMapReconciler.CreateContentSourceBindings`: creates or updates a
ContentSourceBinding named after the UUID in every namespace carrying the
user-workload label. -/
def CreateContentSourceBindings (clUUID : String) (s : ClusterState) : ClusterState :=
  let userNS :=
    s.namespaces.filter (fun ns => (mapGet ns.labels UserWorkloadNamespaceLabel).isSome)
  { s with csBindings :=
      userNS.foldl (fun acc ns => upsertBinding ⟨clUUID, ns.name, clUUID⟩ acc) s.csBindings }

/-- `ConfigMapReconciler.ReconcileNormal`: lists the TKG-labeled
ContentSources, deletes every listed one whose name differs from the
ConfigMap's ContentSource value, stops there when that value is empty, and
otherwise ensures the provider, source and bindings exist and are current. -/
def ReconcileNormal (clUUID : String) (s : ClusterState) : ClusterState :=
  let listed := s.contentSources.filter hasTKGLabel
  let s1 := { s with contentSources := deleteStale clUUID listed s.contentSources }
  if clUUID == "" then s1
  else CreateContentSourceBindings clUUID (CreateOrUpdateContentSourceResources clUUID s1)

theorem listIsPrefix_append (p l m : List Char) (h : listIsPrefix p l = true) :
    listIsPrefix p (l ++ m) = true := by
  induction p generalizing l with
  | nil => rfl
  | cons a as ih =>
    cases l with
    | nil => simp [listIsPrefix] at h
    | cons b bs =>
      simp only [listIsPrefix, List.cons_append, Bool.and_eq_true] at h ⊢
      exact ⟨h.1, ih bs h.2⟩

theorem strContainsSub_of_isPrefix (pre rest sub : String)
    (h : listIsPrefix sub.data pre.data = true) :
    strContainsSub (pre ++ rest) sub = true := by
  unfold strContainsSub
  refine List.any_eq_true.mpr ⟨0, List.mem_range.mpr (Nat.succ_pos _), ?_⟩
  have hdata : (pre ++ rest).data = pre.data ++ rest.data := rfl
  rw [List.drop_zero, hdata]
  exact listIsPrefix_append _ _ _ h

theorem waitLoop_none (fuel i : Nat) : waitLoop none i fuel = (false, i + fuel) := by
  induction fuel generalizing i with
  | zero => rfl
  | succ fuel ih =>
    have h1 : waitLoop none i (fuel + 1)
        = if isReadyAtPoll none i then (true, i + 1) else waitLoop none (i + 1) fuel := rfl
    have h2 : isReadyAtPoll none i = false := rfl
    rw [h1, h2]
    simp only [Bool.false_eq_true, if_false]
    rw [ih (i + 1)]
    have h3 : i + 1 + fuel = i + (fuel + 1) := by omega
    rw [h3]

theorem maxPolls_le (cfg : WaitConfig) :
    maxPolls cfg * cfg.pollInterval ≤ cfg.RetryTimeout + cfg.pollInterval - 1 := by
  unfold maxPolls
  rw [Nat.mul_comm]
  exact Nat.mul_div_le _ _

theorem le_maxPolls_mul (cfg : WaitConfig) (hi : 0 < cfg.pollInterval) :
    cfg.RetryTimeout ≤ maxPolls cfg * cfg.pollInterval := by
  unfold maxPolls
  have key := Nat.div_add_mod (cfg.RetryTimeout + cfg.pollInterval - 1) cfg.pollInterval
  have hmod := Nat.mod_lt (cfg.RetryTimeout + cfg.pollInterval - 1) hi
  rw [Nat.mul_comm]
  omega

theorem maxPolls_pos (cfg : WaitConfig) (hi : 0 < cfg.pollInterval)
    (ht : 0 < cfg.RetryTimeout) : 0 < maxPolls cfg := by
  have h := le_maxPolls_mul cfg hi
  by_contra h0
  have : maxPolls cfg = 0 := by omega
  rw [this] at h
  omega

/-- The two outcome shapes of a call: either no error, or an empty result set. -/
theorem createAndWait_shape (w : NetworkWorld) (cfg : WaitConfig) (vmName : String)
    (scope : Option String) (specs : List InterfaceSpec) :
    (CreateAndWaitForNetworkInterfaces w cfg vmName scope specs).error = none ∨
    (CreateAndWaitForNetworkInterfaces w cfg vmName scope specs).results = ⟨[]⟩ := by
  unfold CreateAndWaitForNetworkInterfaces
  rcases hra : resolveAll w.env vmName w.namedNetworks specs w.store with ⟨store1, res⟩
  cases res with
  | error e => right; rfl
  | ok resolved =>
    simp only
    rcases hfe : firstErr ((resolved.map
        (processOne w.env w.portgroups scope cfg store1)).map IfaceOutcome.res) with _ | e
    · left; rfl
    · right; rfl

theorem strLength_append (s t : String) : (s ++ t).length = s.length + t.length := by
  show ((s ++ t).data).length = s.data.length + t.data.length
  have h : (s ++ t).data = s.data ++ t.data := rfl
  rw [h, List.length_append]

theorem crName_legacy_ne_current (env : NetworkEnvType) (henv : env ≠ .named)
    (vm net ifn : String) :
    crNameFor env vm net ifn true ≠ crNameFor env vm net ifn false := by
  have hd : ("-" : String).length = 1 := rfl
  cases env with
  | named => exact absurd rfl henv
  | vds =>
    have e1 : crNameFor .vds vm net ifn true = vm ++ "-" ++ net := rfl
    have e2 : crNameFor .vds vm net ifn false = vm ++ "-" ++ net ++ "-" ++ ifn := rfl
    rw [e1, e2]
    intro h
    have hl := congrArg String.length h
    simp only [strLength_append, hd] at hl
    omega
  | nsxt =>
    have e1 : crNameFor .nsxt vm net ifn true = vm ++ "-" ++ net := rfl
    have e2 : crNameFor .nsxt vm net ifn false = vm ++ "-" ++ net ++ "-" ++ ifn := rfl
    rw [e1, e2]
    intro h
    have hl := congrArg String.length h
    simp only [strLength_append, hd] at hl
    omega

theorem findCR_append (s1 s2 : List CRObject) (nm : String) :
    findCR (s1 ++ s2) nm = Option.orElse (findCR s1 nm) (fun _ => findCR s2 nm) := by
  unfold findCR
  induction s1 with
  | nil => simp [Option.orElse]
  | cons a s ih =>
    simp only [List.cons_append, List.find?]
    cases h : (a.name == nm) with
    | true => simp [Option.orElse]
    | false => simpa using ih

theorem resolveAll_ok_fst (env : NetworkEnvType) (vm : String) (nns : List NamedNetwork) :
    ∀ (specs : List InterfaceSpec) (store store1 : List CRObject)
      (resolved : List (InterfaceSpec × String)),
      resolveAll env vm nns specs store = (store1, .ok resolved) →
      resolved.map Prod.fst = specs := by
  intro specs
  induction specs with
  | nil =>
    intro store store1 resolved h
    simp only [resolveAll, Prod.mk.injEq, Except.ok.injEq] at h
    rw [← h.2]
    rfl
  | cons spec rest ih =>
    intro store store1 resolved h
    simp only [resolveAll] at h
    rcases hro : resolveOne env vm nns spec store with ⟨storeA, resA⟩
    rw [hro] at h
    cases resA with
    | error e => simp at h
    | ok ref =>
      dsimp only at h
      rcases hrest : resolveAll env vm nns rest storeA with ⟨storeB, resB⟩
      rw [hrest] at h
      cases resB with
      | error e => simp at h
      | ok l =>
        simp only [Prod.mk.injEq, Except.ok.injEq] at h
        rw [← h.2]
        simp only [List.map_cons]
        rw [ih storeA storeB l hrest]

theorem processOne_ok_name (env : NetworkEnvType) (pgs : List Portgroup)
    (scope : Option String) (cfg : WaitConfig) (store : List CRObject)
    (p : InterfaceSpec × String) (r : NetworkInterfaceResult)
    (h : (processOne env pgs scope cfg store p).res = .ok r) :
    r.Name = p.1.Name := by
  cases env with
  | named =>
    simp only [processOne] at h
    injection h with h1
    rw [← h1]
  | vds =>
    simp only [processOne] at h
    rcases hf : findCR store p.2 with _ | cr <;> rw [hf] at h
    · simp at h
    · dsimp only at h
      rcases hw : waitLoop cr.readyAt 0 (maxPolls cfg) with ⟨b, n⟩
      rw [hw] at h
      cases b
      · simp at h
      · dsimp only at h
        rcases hn : normalizeEntries cr.ipEntries with e | ipcs <;> rw [hn] at h
        · simp at h
        · dsimp only at h
          rcases hb : resolveBacking .vds pgs scope cr.networkID with e | backing <;>
            rw [hb] at h
          · simp at h
          · dsimp only at h
            injection h with h1
            rw [← h1]
  | nsxt =>
    simp only [processOne] at h
    rcases hf : findCR store p.2 with _ | cr <;> rw [hf] at h
    · simp at h
    · dsimp only at h
      rcases hw : waitLoop cr.readyAt 0 (maxPolls cfg) with ⟨b, n⟩
      rw [hw] at h
      cases b
      · simp at h
      · dsimp only at h
        rcases hn : normalizeEntries cr.ipEntries with e | ipcs <;> rw [hn] at h
        · simp at h
        · dsimp only at h
          rcases hb : resolveBacking .nsxt pgs scope cr.networkID with e | backing <;>
            rw [hb] at h
          · simp at h
          · dsimp only at h
            injection h with h1
            rw [← h1]

theorem firstErr_none_names (env : NetworkEnvType) (pgs : List Portgroup)
    (scope : Option String) (cfg : WaitConfig) (store : List CRObject) :
    ∀ (resolved : List (InterfaceSpec × String)),
      firstErr ((resolved.map (processOne env pgs scope cfg store)).map IfaceOutcome.res)
          = none →
      (okResults ((resolved.map (processOne env pgs scope cfg store)).map
          IfaceOutcome.res)).map NetworkInterfaceResult.Name
        = resolved.map (fun p => p.1.Name) := by
  intro resolved
  induction resolved with
  | nil => intro _; rfl
  | cons p rest ih =>
    intro h
    simp only [List.map_cons] at h ⊢
    rcases hres : (processOne env pgs scope cfg store p).res with e | r <;> rw [hres] at h
    · simp [firstErr] at h
    · simp only [firstErr] at h
      simp only [okResults, List.map_cons]
      rw [processOne_ok_name env pgs scope cfg store p r hres, ih h]

theorem resolveCR_idempotent (legacy current net : String) (store : List CRObject) :
    resolveCR legacy current net (resolveCR legacy current net store).1
      = resolveCR legacy current net store ∧
    (resolveCR legacy current net store).1.length ≤ store.length + 1 := by
  rcases hL : findCR store legacy with _ | o
  · rcases hC : findCR store current with _ | o
    · have h1 : resolveCR legacy current net store
          = (store ++ [newCR current net], current) := by
        unfold resolveCR
        rw [hL, hC]
      rw [h1]
      refine ⟨?_, by simp⟩
      by_cases hcl : current = legacy
      · have h2 : findCR (store ++ [newCR current net]) legacy = some (newCR current net) := by
          rw [findCR_append, hL]
          subst hcl
          simp [findCR, List.find?, newCR, Option.orElse]
        unfold resolveCR
        rw [h2]
        subst hcl
        rfl
      · have h2 : findCR (store ++ [newCR current net]) legacy = none := by
          rw [findCR_append, hL]
          have hb : (current == legacy) = false := beq_eq_false_iff_ne.mpr hcl
          simp [findCR, List.find?, newCR, Option.orElse, hb]
        have h3 : findCR (store ++ [newCR current net]) current = some (newCR current net) := by
          rw [findCR_append, hC]
          simp [findCR, List.find?, newCR, Option.orElse]
        unfold resolveCR
        rw [h2, h3]
    · have h1 : resolveCR legacy current net store = (store, current) := by
        unfold resolveCR
        rw [hL, hC]
      rw [h1]
      refine ⟨?_, by simp⟩
      exact h1
  · have h1 : resolveCR legacy current net store = (store, legacy) := by
      unfold resolveCR
      rw [hL]
    rw [h1]
    refine ⟨h1, by simp⟩

end VMOperator

namespace VMOperator

/-! ## Claim theorems for the network engine -/

/-- C1: whenever `CreateAndWaitForNetworkInterfaces` returns an error — for
any reason on any interface — the returned `NetworkInterfaceResults`
collection is empty, so a caller never observes partial results next to an
error. -/
theorem createAndWait_error_empty_results (w : NetworkWorld) (cfg : WaitConfig)
    (vmName : String) (scope : Option String) (specs : List InterfaceSpec)
    (h : (CreateAndWaitForNetworkInterfaces w cfg vmName scope specs).error ≠ none) :
    (CreateAndWaitForNetworkInterfaces w cfg vmName scope specs).results = ⟨[]⟩ := by
  rcases createAndWait_shape w cfg vmName scope specs with h0 | h1
  · exact absurd h0 h
  · exact h1

/-- Witness for C1 at a concrete failing call (Named environment, network
absent from inventory). -/
theorem createAndWait_error_empty_results_witness :
    (CreateAndWaitForNetworkInterfaces
        { env := .named, namedNetworks := [⟨"DC0_DVPG0", "dvpg-ref"⟩], store := [],
          portgroups := [] }
        ⟨1000, 100⟩ "network-test-vm" none [⟨"eth0", "bogus", false⟩]).results = ⟨[]⟩ :=
  createAndWait_error_empty_results _ _ _ _ _ (by decide)

theorem notReady_call_eval (env : NetworkEnvType) (nns : List NamedNetwork)
    (pgs : List Portgroup) (store : List CRObject) (cfg : WaitConfig)
    (vm net ifn : String) (dh : Bool) (cr : CRObject)
    (henv : env ≠ .named)
    (hfindL : findCR store (crNameFor env vm net ifn true) = none)
    (hfindC : findCR store (crNameFor env vm net ifn false) = some cr)
    (hready : cr.readyAt = none) :
    CreateAndWaitForNetworkInterfaces ⟨env, nns, store, pgs⟩ cfg vm none [⟨ifn, net, dh⟩]
      = { results := ⟨[]⟩, error := some (.notReady ifn), store := store,
          waits := 1, elapsed := cfg.pollInterval * maxPolls cfg } := by
  cases env with
  | named => exact absurd rfl henv
  | vds =>
    simp only [crNameFor] at hfindL hfindC
    have hro : resolveOne .vds vm nns ⟨ifn, net, dh⟩ store
        = (store, .ok (NetOPCRName vm net ifn false)) := by
      simp only [resolveOne, resolveCR]
      rw [hfindL, hfindC]
    have hra : resolveAll .vds vm nns [⟨ifn, net, dh⟩] store
        = (store, .ok [(⟨ifn, net, dh⟩, NetOPCRName vm net ifn false)]) := by
      simp only [resolveAll]
      rw [hro]
    have hpo : processOne .vds pgs none cfg store (⟨ifn, net, dh⟩, NetOPCRName vm net ifn false)
        = { res := .error (.notReady ifn), polls := maxPolls cfg, waits := 1 } := by
      simp only [processOne]
      rw [hfindC]
      dsimp only
      rw [hready, waitLoop_none]
      simp only [Nat.zero_add]
    unfold CreateAndWaitForNetworkInterfaces
    dsimp only
    rw [hra]
    dsimp only
    simp only [List.map_cons, List.map_nil]
    rw [hpo]
    simp [firstErr, maxNat, okResults]
  | nsxt =>
    simp only [crNameFor] at hfindL hfindC
    have hro : resolveOne .nsxt vm nns ⟨ifn, net, dh⟩ store
        = (store, .ok (NCPCRName vm net ifn false)) := by
      simp only [resolveOne, resolveCR]
      rw [hfindL, hfindC]
    have hra : resolveAll .nsxt vm nns [⟨ifn, net, dh⟩] store
        = (store, .ok [(⟨ifn, net, dh⟩, NCPCRName vm net ifn false)]) := by
      simp only [resolveAll]
      rw [hro]
    have hpo : processOne .nsxt pgs none cfg store (⟨ifn, net, dh⟩, NCPCRName vm net ifn false)
        = { res := .error (.notReady ifn), polls := maxPolls cfg, waits := 1 } := by
      simp only [processOne]
      rw [hfindC]
      dsimp only
      rw [hready, waitLoop_none]
      simp only [Nat.zero_add]
    unfold CreateAndWaitForNetworkInterfaces
    dsimp only
    rw [hra]
    dsimp only
    simp only [List.map_cons, List.map_nil]
    rw [hpo]
    simp [firstErr, maxNat, okResults]

/-- C3: for a VDS or NSX-T interface whose backend request object exists but
whose readiness condition is never `True` during the call, the call returns a
`notReady` error whose message contains "network interface is not ready yet",
and the time spent waiting is at least `RetryTimeout` (not instant) yet less
than `RetryTimeout` plus one poll interval (not materially longer). -/
theorem vds_nsxt_not_ready_times_out (env : NetworkEnvType) (nns : List NamedNetwork)
    (pgs : List Portgroup) (store : List CRObject) (cfg : WaitConfig)
    (vm net ifn : String) (dh : Bool) (cr : CRObject)
    (henv : env ≠ .named)
    (hfindL : findCR store (crNameFor env vm net ifn true) = none)
    (hfindC : findCR store (crNameFor env vm net ifn false) = some cr)
    (hready : cr.readyAt = none)
    (hi : 0 < cfg.pollInterval) (ht : 0 < cfg.RetryTimeout) :
    (CreateAndWaitForNetworkInterfaces ⟨env, nns, store, pgs⟩ cfg vm none
        [⟨ifn, net, dh⟩]).error = some (.notReady ifn) ∧
    strContainsSub (NetworkError.message (.notReady ifn))
        "network interface is not ready yet" = true ∧
    cfg.RetryTimeout ≤ (CreateAndWaitForNetworkInterfaces ⟨env, nns, store, pgs⟩ cfg vm none
        [⟨ifn, net, dh⟩]).elapsed ∧
    (CreateAndWaitForNetworkInterfaces ⟨env, nns, store, pgs⟩ cfg vm none
        [⟨ifn, net, dh⟩]).elapsed < cfg.RetryTimeout + cfg.pollInterval := by
  rw [notReady_call_eval env nns pgs store cfg vm net ifn dh cr henv hfindL hfindC hready]
  dsimp only
  refine ⟨rfl, ?_, ?_, ?_⟩
  · show strContainsSub ("network interface is not ready yet: " ++ ifn)
      "network interface is not ready yet" = true
    exact strContainsSub_of_isPrefix "network interface is not ready yet: " ifn _ (by decide)
  · rw [Nat.mul_comm]
    exact le_maxPolls_mul cfg hi
  · have h1 := maxPolls_le cfg
    rw [Nat.mul_comm]
    omega

/-- Witness for C3: the concrete VDS scenario of the test suite
(`RetryTimeout` one second, 100 ms polls, request object present, readiness
condition never `True`). -/
theorem vds_nsxt_not_ready_times_out_witness :
    (CreateAndWaitForNetworkInterfaces
        ⟨.vds, [], [newCR "network-test-vm-my-vds-network-eth0" "my-vds-network"], []⟩
        ⟨1000, 100⟩ "network-test-vm" none
        [⟨"eth0", "my-vds-network", false⟩]).error = some (.notReady "eth0") ∧
    1000 ≤ (CreateAndWaitForNetworkInterfaces
        ⟨.vds, [], [newCR "network-test-vm-my-vds-network-eth0" "my-vds-network"], []⟩
        ⟨1000, 100⟩ "network-test-vm" none
        [⟨"eth0", "my-vds-network", false⟩]).elapsed :=
  have h := vds_nsxt_not_ready_times_out .vds [] []
    [newCR "network-test-vm-my-vds-network-eth0" "my-vds-network"]
    ⟨1000, 100⟩ "network-test-vm" "my-vds-network" "eth0" false
    (newCR "network-test-vm-my-vds-network-eth0" "my-vds-network")
    (by decide) (by decide) (by decide) rfl (by decide) (by decide)
  ⟨h.1, h.2.2.1⟩

theorem named_not_found_resolveAll (w : NetworkWorld) (vmName : String) (ifn nwName : String)
    (dh : Bool)
    (henv : w.env = .named)
    (hmiss : w.namedNetworks.find? (fun n => n.name == nwName) = none) :
    resolveAll w.env vmName w.namedNetworks [⟨ifn, nwName, dh⟩] w.store
      = (w.store, .error (.networkNotFound nwName)) := by
  have hro : resolveOne w.env vmName w.namedNetworks ⟨ifn, nwName, dh⟩ w.store
      = (w.store, .error (.networkNotFound nwName)) := by
    rw [henv]
    simp only [resolveOne]
    rw [hmiss]
  simp only [resolveAll]
  rw [hro]

/-- C4: in the Named network environment, a request for a network name that
does not exist in inventory fails with a terminal `networkNotFound` whose
message contains "unable to find named network", immediately (zero elapsed
time), without any waiter invocation, with an empty result set — the error is
never retried within the call. -/
theorem named_network_not_found (w : NetworkWorld) (cfg : WaitConfig) (vmName : String)
    (scope : Option String) (ifn nwName : String) (dh : Bool)
    (henv : w.env = .named)
    (hmiss : w.namedNetworks.find? (fun n => n.name == nwName) = none) :
    (CreateAndWaitForNetworkInterfaces w cfg vmName scope [⟨ifn, nwName, dh⟩]).error
        = some (.networkNotFound nwName) ∧
    strContainsSub (NetworkError.message (.networkNotFound nwName))
        "unable to find named network" = true ∧
    (CreateAndWaitForNetworkInterfaces w cfg vmName scope [⟨ifn, nwName, dh⟩]).waits = 0 ∧
    (CreateAndWaitForNetworkInterfaces w cfg vmName scope [⟨ifn, nwName, dh⟩]).elapsed = 0 ∧
    (CreateAndWaitForNetworkInterfaces w cfg vmName scope [⟨ifn, nwName, dh⟩]).results = ⟨[]⟩ := by
  have hra := named_not_found_resolveAll w vmName ifn nwName dh henv hmiss
  unfold CreateAndWaitForNetworkInterfaces
  rw [hra]
  refine ⟨rfl, ?_, rfl, rfl, rfl⟩
  show strContainsSub ("unable to find named network " ++ nwName)
    "unable to find named network" = true
  exact strContainsSub_of_isPrefix "unable to find named network " nwName _ (by decide)

/-- Witness for C4: the concrete scenario of the test suite (network "bogus"
absent from an inventory holding only "DC0_DVPG0"). -/
theorem named_network_not_found_witness :
    (CreateAndWaitForNetworkInterfaces
        { env := .named, namedNetworks := [⟨"DC0_DVPG0", "dvpg-ref"⟩], store := [],
          portgroups := [] }
        ⟨1000, 100⟩ "network-test-vm" none [⟨"eth0", "bogus", false⟩]).error
      = some (.networkNotFound "bogus") ∧
    strContainsSub (NetworkError.message (.networkNotFound "bogus"))
      "unable to find named network" = true :=
  have h := named_network_not_found
    { env := .named, namedNetworks := [⟨"DC0_DVPG0", "dvpg-ref"⟩], store := [], portgroups := [] }
    ⟨1000, 100⟩ "network-test-vm" none "eth0" "bogus" false rfl (by decide)
  ⟨h.1, h.2.1⟩

/-- C5: a successful `CreateAndWaitForNetworkInterfaces` call returns exactly
one result per desired spec, at the same index position as its spec in the
input list — the result names read back the spec names in input order —
regardless of the order in which the interfaces became ready (the readiness
instants in the world are universally quantified). -/
theorem createAndWait_error_resolveErr (w : NetworkWorld) (cfg : WaitConfig) (vm : String)
    (scope : Option String) (specs : List InterfaceSpec) (store1 : List CRObject)
    (e : NetworkError)
    (hra : resolveAll w.env vm w.namedNetworks specs w.store = (store1, .error e)) :
    (CreateAndWaitForNetworkInterfaces w cfg vm scope specs).error = some e := by
  unfold CreateAndWaitForNetworkInterfaces
  rw [hra]

theorem createAndWait_error_resolveOk (w : NetworkWorld) (cfg : WaitConfig) (vm : String)
    (scope : Option String) (specs : List InterfaceSpec) (store1 : List CRObject)
    (resolved : List (InterfaceSpec × String))
    (hra : resolveAll w.env vm w.namedNetworks specs w.store = (store1, .ok resolved)) :
    (CreateAndWaitForNetworkInterfaces w cfg vm scope specs).error
      = firstErr ((resolved.map (processOne w.env w.portgroups scope cfg store1)).map
          IfaceOutcome.res) := by
  unfold CreateAndWaitForNetworkInterfaces
  rw [hra]
  dsimp only
  split
  · next e heq => rw [heq]
  · next heq => rw [heq]

theorem createAndWait_results_resolveOk (w : NetworkWorld) (cfg : WaitConfig) (vm : String)
    (scope : Option String) (specs : List InterfaceSpec) (store1 : List CRObject)
    (resolved : List (InterfaceSpec × String))
    (hra : resolveAll w.env vm w.namedNetworks specs w.store = (store1, .ok resolved))
    (hfe : firstErr ((resolved.map (processOne w.env w.portgroups scope cfg store1)).map
        IfaceOutcome.res) = none) :
    (CreateAndWaitForNetworkInterfaces w cfg vm scope specs).results
      = ⟨okResults ((resolved.map (processOne w.env w.portgroups scope cfg store1)).map
          IfaceOutcome.res)⟩ := by
  unfold CreateAndWaitForNetworkInterfaces
  rw [hra]
  dsimp only
  rw [hfe]

theorem results_order_preserved (w : NetworkWorld) (cfg : WaitConfig) (vm : String)
    (scope : Option String) (specs : List InterfaceSpec)
    (h : (CreateAndWaitForNetworkInterfaces w cfg vm scope specs).error = none) :
    (CreateAndWaitForNetworkInterfaces w cfg vm scope specs).results.Results.map
        NetworkInterfaceResult.Name
      = specs.map InterfaceSpec.Name := by
  rcases hra : resolveAll w.env vm w.namedNetworks specs w.store with ⟨store1, res⟩
  cases res with
  | error e =>
    rw [createAndWait_error_resolveErr w cfg vm scope specs store1 e hra] at h
    simp at h
  | ok resolved =>
    rw [createAndWait_error_resolveOk w cfg vm scope specs store1 resolved hra] at h
    rw [createAndWait_results_resolveOk w cfg vm scope specs store1 resolved hra h]
    dsimp only
    rw [firstErr_none_names w.env w.portgroups scope cfg store1 resolved h]
    have h1 := resolveAll_ok_fst w.env vm w.namedNetworks specs w.store store1 resolved hra
    rw [← h1, List.map_map]
    rfl

/-- Witness for C5: two VDS interfaces whose backends became ready in the
opposite order (eth1 at poll 0, eth0 only at poll 3); the results still read
eth0 then eth1. -/
theorem results_order_preserved_witness :
    (CreateAndWaitForNetworkInterfaces
        { env := .vds, namedNetworks := [],
          store := [{ name := "vm-net0-eth0", networkName := "net0", networkID := "pg0",
                      macAddress := "", externalID := "", ipEntries := [], readyAt := some 3 },
                    { name := "vm-net1-eth1", networkName := "net1", networkID := "pg1",
                      macAddress := "", externalID := "", ipEntries := [], readyAt := some 0 }],
          portgroups := [⟨"pg0", none, "c0"⟩, ⟨"pg1", none, "c0"⟩] }
        ⟨1000, 100⟩ "vm" none
        [⟨"eth0", "net0", false⟩, ⟨"eth1", "net1", false⟩]).results.Results.map
        NetworkInterfaceResult.Name
      = ["eth0", "eth1"] :=
  results_order_preserved _ _ _ _ _ (by decide)

/-- C6: when a backend request object already exists under the
legacy-generation name of an interface, the resolve step addresses that
legacy name (so every subsequent operation of the call targets the
legacy-named object), and the whole call leaves the object store unchanged —
in particular no current-generation-named object is ever created for the same
VM name, network name and interface name. -/
theorem legacy_name_precedence (env : NetworkEnvType) (nns : List NamedNetwork)
    (pgs : List Portgroup) (store : List CRObject) (cfg : WaitConfig)
    (scope : Option String) (vm net ifn : String) (dh : Bool) (cr : CRObject)
    (henv : env ≠ .named)
    (hleg : findCR store (crNameFor env vm net ifn true) = some cr) :
    resolveOne env vm nns ⟨ifn, net, dh⟩ store
        = (store, .ok (crNameFor env vm net ifn true)) ∧
    (CreateAndWaitForNetworkInterfaces ⟨env, nns, store, pgs⟩ cfg vm scope
        [⟨ifn, net, dh⟩]).store = store := by
  have hro : resolveOne env vm nns ⟨ifn, net, dh⟩ store
      = (store, .ok (crNameFor env vm net ifn true)) := by
    cases env with
    | named => exact absurd rfl henv
    | vds =>
      simp only [crNameFor] at hleg ⊢
      simp only [resolveOne, resolveCR]
      rw [hleg]
    | nsxt =>
      simp only [crNameFor] at hleg ⊢
      simp only [resolveOne, resolveCR]
      rw [hleg]
  refine ⟨hro, ?_⟩
  have hra : resolveAll env vm nns [⟨ifn, net, dh⟩] store
      = (store, .ok [(⟨ifn, net, dh⟩, crNameFor env vm net ifn true)]) := by
    simp only [resolveAll]
    rw [hro]
  unfold CreateAndWaitForNetworkInterfaces
  dsimp only
  rw [hra]
  dsimp only
  split <;> rfl

/-- Witness for C6: a legacy-named NetOP object exists; resolve returns the
legacy name and the call creates nothing. -/
theorem legacy_name_precedence_witness :
    resolveOne .vds "network-test-vm" []
        ⟨"eth0", "my-vds-network", false⟩
        [newCR "network-test-vm-my-vds-network" "my-vds-network"]
      = ([newCR "network-test-vm-my-vds-network" "my-vds-network"],
         .ok (crNameFor .vds "network-test-vm" "my-vds-network" "eth0" true)) ∧
    (CreateAndWaitForNetworkInterfaces
        ⟨.vds, [], [newCR "network-test-vm-my-vds-network" "my-vds-network"], []⟩
        ⟨1000, 100⟩ "network-test-vm" none [⟨"eth0", "my-vds-network", false⟩]).store
      = [newCR "network-test-vm-my-vds-network" "my-vds-network"] :=
  legacy_name_precedence .vds [] [] [newCR "network-test-vm-my-vds-network" "my-vds-network"]
    ⟨1000, 100⟩ none "network-test-vm" "my-vds-network" "eth0" false
    (newCR "network-test-vm-my-vds-network" "my-vds-network") (by decide) (by decide)

/-- C7: resolving the same (VM name, network name, interface name) identity
twice creates at most one backend request object: the second resolve call
returns exactly the first call's store and object reference (no duplicate, no
change), the first call grows the store by at most one object, and for the
object-creating backends the resolve step never errors. -/
theorem resolve_idempotent (env : NetworkEnvType) (vm : String) (nns : List NamedNetwork)
    (spec : InterfaceSpec) (store : List CRObject) :
    resolveOne env vm nns spec (resolveOne env vm nns spec store).1
        = resolveOne env vm nns spec store ∧
    (resolveOne env vm nns spec store).1.length ≤ store.length + 1 ∧
    (env ≠ .named → ∃ nm, (resolveOne env vm nns spec store).2 = .ok nm) := by
  cases env with
  | named =>
    have hstore : (resolveOne .named vm nns spec store).1 = store := by
      simp only [resolveOne]
      rcases hf : nns.find? (fun n => n.name == spec.NetworkName) with _ | n <;> rw [hf]
    refine ⟨?_, by rw [hstore]; omega, fun hne => absurd rfl hne⟩
    rw [hstore]
  | vds =>
    have h := resolveCR_idempotent (NetOPCRName vm spec.NetworkName spec.Name true)
      (NetOPCRName vm spec.NetworkName spec.Name false) spec.NetworkName store
    simp only [resolveOne]
    refine ⟨?_, h.2, fun _ => ⟨_, rfl⟩⟩
    rw [h.1]
  | nsxt =>
    have h := resolveCR_idempotent (NCPCRName vm spec.NetworkName spec.Name true)
      (NCPCRName vm spec.NetworkName spec.Name false) spec.NetworkName store
    simp only [resolveOne]
    refine ⟨?_, h.2, fun _ => ⟨_, rfl⟩⟩
    rw [h.1]

/-- Witness for C7 at a concrete identity on an initially empty store,
with the no-error implication discharged. -/
theorem resolve_idempotent_witness :
    resolveOne .vds "vm" [] ⟨"eth0", "net", false⟩
        (resolveOne .vds "vm" [] ⟨"eth0", "net", false⟩ []).1
      = resolveOne .vds "vm" [] ⟨"eth0", "net", false⟩ [] ∧
    (resolveOne .vds "vm" [] ⟨"eth0", "net", false⟩ []).1.length ≤ 1 ∧
    (∃ nm, (resolveOne .vds "vm" [] ⟨"eth0", "net", false⟩ []).2 = .ok nm) :=
  have h := resolve_idempotent .vds "vm" [] ⟨"eth0", "net", false⟩ []
  ⟨h.1, h.2.1, h.2.2 (by decide)⟩

/-- C8: for a ready NSX-T (overlay) interface, a call without a cluster scope
succeeds with `Backing = none` (the not-yet-resolvable outcome, not an
error), and the same call repeated with a cluster reference succeeds with the
backing resolved to the portgroup whose backing logical-switch UUID matches
the one the interface reported. -/
theorem nsxt_backing_cluster_scope (nns : List NamedNetwork) (cfg : WaitConfig)
    (vm net ifn uuid pgref cluster mac ext : String) (dh : Bool)
    (hi : 0 < cfg.pollInterval) (ht : 0 < cfg.RetryTimeout) :
    ((CreateAndWaitForNetworkInterfaces
        ⟨.nsxt, nns, [nsxtReadyCR vm net ifn uuid mac ext], [⟨pgref, some uuid, cluster⟩]⟩
        cfg vm none [⟨ifn, net, dh⟩]).error = none ∧
     (CreateAndWaitForNetworkInterfaces
        ⟨.nsxt, nns, [nsxtReadyCR vm net ifn uuid mac ext], [⟨pgref, some uuid, cluster⟩]⟩
        cfg vm none [⟨ifn, net, dh⟩]).results.Results.map NetworkInterfaceResult.Backing
       = [none]) ∧
    ((CreateAndWaitForNetworkInterfaces
        ⟨.nsxt, nns, [nsxtReadyCR vm net ifn uuid mac ext], [⟨pgref, some uuid, cluster⟩]⟩
        cfg vm (some cluster) [⟨ifn, net, dh⟩]).error = none ∧
     (CreateAndWaitForNetworkInterfaces
        ⟨.nsxt, nns, [nsxtReadyCR vm net ifn uuid mac ext], [⟨pgref, some uuid, cluster⟩]⟩
        cfg vm (some cluster) [⟨ifn, net, dh⟩]).results.Results.map
        NetworkInterfaceResult.Backing = [some pgref]) := by
  obtain ⟨k, hk⟩ : ∃ k, maxPolls cfg = k + 1 :=
    ⟨maxPolls cfg - 1, by have := maxPolls_pos cfg hi ht; omega⟩
  have hwait : waitLoop (some 0) 0 (maxPolls cfg) = (true, 1) := by rw [hk]; rfl
  have hne : ((nsxtReadyCR vm net ifn uuid mac ext).name == NCPCRName vm net ifn true)
      = false := by
    apply beq_eq_false_iff_ne.mpr
    show NCPCRName vm net ifn false ≠ NCPCRName vm net ifn true
    exact Ne.symm (crName_legacy_ne_current .nsxt (by decide) vm net ifn)
  have hfindL : findCR [nsxtReadyCR vm net ifn uuid mac ext] (NCPCRName vm net ifn true)
      = none := by
    simp [findCR, List.find?, hne]
  have hfindC : findCR [nsxtReadyCR vm net ifn uuid mac ext] (NCPCRName vm net ifn false)
      = some (nsxtReadyCR vm net ifn uuid mac ext) := by
    simp [findCR, List.find?, nsxtReadyCR]
  have hro : resolveOne .nsxt vm nns ⟨ifn, net, dh⟩ [nsxtReadyCR vm net ifn uuid mac ext]
      = ([nsxtReadyCR vm net ifn uuid mac ext], .ok (NCPCRName vm net ifn false)) := by
    simp only [resolveOne, resolveCR]
    rw [hfindL, hfindC]
  have hra : resolveAll .nsxt vm nns [⟨ifn, net, dh⟩] [nsxtReadyCR vm net ifn uuid mac ext]
      = ([nsxtReadyCR vm net ifn uuid mac ext],
         .ok [(⟨ifn, net, dh⟩, NCPCRName vm net ifn false)]) := by
    simp only [resolveAll]
    rw [hro]
  have hback1 : resolveBacking .nsxt [⟨pgref, some uuid, cluster⟩] (some cluster) uuid
      = .ok (some pgref) := by
    simp [resolveBacking, List.find?]
  have hpo0 : processOne .nsxt [⟨pgref, some uuid, cluster⟩] none cfg
      [nsxtReadyCR vm net ifn uuid mac ext] (⟨ifn, net, dh⟩, NCPCRName vm net ifn false)
      = { res := .ok { Name := ifn, MacAddress := mac, ExternalID := ext, NetworkID := uuid,
                       Backing := none, DHCP4 := true, DHCP6 := dh, IPConfigs := [] },
          polls := 1, waits := 1 } := by
    simp only [processOne]
    rw [hfindC]
    dsimp only [nsxtReadyCR]
    rw [hwait]
    rfl
  have hpo1 : processOne .nsxt [⟨pgref, some uuid, cluster⟩] (some cluster) cfg
      [nsxtReadyCR vm net ifn uuid mac ext] (⟨ifn, net, dh⟩, NCPCRName vm net ifn false)
      = { res := .ok { Name := ifn, MacAddress := mac, ExternalID := ext, NetworkID := uuid,
                       Backing := some pgref, DHCP4 := true, DHCP6 := dh, IPConfigs := [] },
          polls := 1, waits := 1 } := by
    simp only [processOne]
    rw [hfindC]
    dsimp only [nsxtReadyCR]
    rw [hwait]
    dsimp only
    simp only [normalizeEntries]
    rw [hback1]
  have hfe0 : firstErr (([((⟨ifn, net, dh⟩ : InterfaceSpec), NCPCRName vm net ifn false)].map
      (processOne .nsxt [⟨pgref, some uuid, cluster⟩] none cfg
        [nsxtReadyCR vm net ifn uuid mac ext])).map IfaceOutcome.res) = none := by
    simp only [List.map_cons, List.map_nil]
    rw [hpo0]
    rfl
  have hfe1 : firstErr (([((⟨ifn, net, dh⟩ : InterfaceSpec), NCPCRName vm net ifn false)].map
      (processOne .nsxt [⟨pgref, some uuid, cluster⟩] (some cluster) cfg
        [nsxtReadyCR vm net ifn uuid mac ext])).map IfaceOutcome.res) = none := by
    simp only [List.map_cons, List.map_nil]
    rw [hpo1]
    rfl
  refine ⟨⟨?_, ?_⟩, ?_, ?_⟩
  · rw [createAndWait_error_resolveOk
      ⟨.nsxt, nns, [nsxtReadyCR vm net ifn uuid mac ext], [⟨pgref, some uuid, cluster⟩]⟩
      cfg vm none [⟨ifn, net, dh⟩] [nsxtReadyCR vm net ifn uuid mac ext]
      [(⟨ifn, net, dh⟩, NCPCRName vm net ifn false)] hra]
    exact hfe0
  · rw [createAndWait_results_resolveOk
      ⟨.nsxt, nns, [nsxtReadyCR vm net ifn uuid mac ext], [⟨pgref, some uuid, cluster⟩]⟩
      cfg vm none [⟨ifn, net, dh⟩] [nsxtReadyCR vm net ifn uuid mac ext]
      [(⟨ifn, net, dh⟩, NCPCRName vm net ifn false)] hra hfe0]
    dsimp only
    simp only [List.map_cons, List.map_nil]
    rw [hpo0]
    rfl
  · rw [createAndWait_error_resolveOk
      ⟨.nsxt, nns, [nsxtReadyCR vm net ifn uuid mac ext], [⟨pgref, some uuid, cluster⟩]⟩
      cfg vm (some cluster) [⟨ifn, net, dh⟩] [nsxtReadyCR vm net ifn uuid mac ext]
      [(⟨ifn, net, dh⟩, NCPCRName vm net ifn false)] hra]
    exact hfe1
  · rw [createAndWait_results_resolveOk
      ⟨.nsxt, nns, [nsxtReadyCR vm net ifn uuid mac ext], [⟨pgref, some uuid, cluster⟩]⟩
      cfg vm (some cluster) [⟨ifn, net, dh⟩] [nsxtReadyCR vm net ifn uuid mac ext]
      [(⟨ifn, net, dh⟩, NCPCRName vm net ifn false)] hra hfe1]
    dsimp only
    simp only [List.map_cons, List.map_nil]
    rw [hpo1]
    rfl

/-- Witness for C8: the concrete NCP scenario of the test suite (logical
switch UUID `nsxt-dummy-ls-uuid`, cluster `domain-c9`). -/
theorem nsxt_backing_cluster_scope_witness :
    ((CreateAndWaitForNetworkInterfaces
        ⟨.nsxt, [], [nsxtReadyCR "network-test-vm" "my-ncp-network" "eth0" "nsxt-dummy-ls-uuid"
            "01-23-45-67-89-AB-CD-EF" "my-interface-id"],
          [⟨"dvportgroup-11", some "nsxt-dummy-ls-uuid", "domain-c9"⟩]⟩
        ⟨1000, 100⟩ "network-test-vm" none
        [⟨"eth0", "my-ncp-network", false⟩]).error = none ∧
     (CreateAndWaitForNetworkInterfaces
        ⟨.nsxt, [], [nsxtReadyCR "network-test-vm" "my-ncp-network" "eth0" "nsxt-dummy-ls-uuid"
            "01-23-45-67-89-AB-CD-EF" "my-interface-id"],
          [⟨"dvportgroup-11", some "nsxt-dummy-ls-uuid", "domain-c9"⟩]⟩
        ⟨1000, 100⟩ "network-test-vm" none
        [⟨"eth0", "my-ncp-network", false⟩]).results.Results.map
        NetworkInterfaceResult.Backing = [none]) ∧
    ((CreateAndWaitForNetworkInterfaces
        ⟨.nsxt, [], [nsxtReadyCR "network-test-vm" "my-ncp-network" "eth0" "nsxt-dummy-ls-uuid"
            "01-23-45-67-89-AB-CD-EF" "my-interface-id"],
          [⟨"dvportgroup-11", some "nsxt-dummy-ls-uuid", "domain-c9"⟩]⟩
        ⟨1000, 100⟩ "network-test-vm" (some "domain-c9")
        [⟨"eth0", "my-ncp-network", false⟩]).error = none ∧
     (CreateAndWaitForNetworkInterfaces
        ⟨.nsxt, [], [nsxtReadyCR "network-test-vm" "my-ncp-network" "eth0" "nsxt-dummy-ls-uuid"
            "01-23-45-67-89-AB-CD-EF" "my-interface-id"],
          [⟨"dvportgroup-11", some "nsxt-dummy-ls-uuid", "domain-c9"⟩]⟩
        ⟨1000, 100⟩ "network-test-vm" (some "domain-c9")
        [⟨"eth0", "my-ncp-network", false⟩]).results.Results.map
        NetworkInterfaceResult.Backing = [some "dvportgroup-11"]) :=
  nsxt_backing_cluster_scope [] ⟨1000, 100⟩ "network-test-vm" "my-ncp-network" "eth0"
    "nsxt-dummy-ls-uuid" "dvportgroup-11" "domain-c9" "01-23-45-67-89-AB-CD-EF"
    "my-interface-id" false (by decide) (by decide)

/-- C2: the address normalizer converts the subnet mask to a prefix length
and combines it with the address into canonical CIDR notation:
`192.168.1.110` with mask `255.255.255.0` and gateway `192.168.1.1` yields
`192.168.1.110/24`, IPv4, gateway preserved; the IPv6 address
`fd1a:6c85:79fe:7c98:0000:0000:0000:000f` (equivalently
`fd1a:6c85:79fe:7c98::f`) with mask `ffff:ffff:ffff:ff00::` (full or
abbreviated) yields the canonical compressed `fd1a:6c85:79fe:7c98::f/56`,
not IPv4. -/
theorem normalize_cidr_scenarios :
    NormalizeIPConfig "192.168.1.110" "255.255.255.0" "192.168.1.1" =
      .ok { IPCIDR := "192.168.1.110/24", IsIPv4 := true, Gateway := "192.168.1.1" } ∧
    NormalizeIPConfig "fd1a:6c85:79fe:7c98:0000:0000:0000:000f"
        "ffff:ffff:ffff:ff00:0000:0000:0000:0000" "fd1a:6c85:79fe:7c98:0000:0000:0000:0001" =
      .ok { IPCIDR := "fd1a:6c85:79fe:7c98::f/56", IsIPv4 := false,
            Gateway := "fd1a:6c85:79fe:7c98:0000:0000:0000:0001" } ∧
    NormalizeIPConfig "fd1a:6c85:79fe:7c98::f" "ffff:ffff:ffff:ff00::"
        "fd1a:6c85:79fe:7c98:0000:0000:0000:0001" =
      .ok { IPCIDR := "fd1a:6c85:79fe:7c98::f/56", IsIPv4 := false,
            Gateway := "fd1a:6c85:79fe:7c98:0000:0000:0000:0001" } := by
  refine ⟨by decide, by decide, by decide⟩

/-! ## Claim theorems for AddAnnotations and the ConfigMap reconciler -/

theorem mapGet_mapSet_self (m : List (String × String)) (k v : String) :
    mapGet (mapSet m k v) k = some v := by
  induction m with
  | nil => simp [mapSet, mapGet]
  | cons p rest ih =>
    rcases p with ⟨k1, v1⟩
    by_cases h : (k1 == k) = true
    · simp [mapSet, h, mapGet]
    · have h' : (k1 == k) = false := by simpa using h
      simp [mapSet, h', mapGet, ih]

theorem mapGet_mapSet_ne (m : List (String × String)) (k v k' : String) (hk : k' ≠ k) :
    mapGet (mapSet m k v) k' = mapGet m k' := by
  have hb : (k == k') = false := beq_eq_false_iff_ne.mpr (Ne.symm hk)
  induction m with
  | nil => simp [mapSet, mapGet, hb]
  | cons p rest ih =>
    rcases p with ⟨k1, v1⟩
    by_cases h : (k1 == k) = true
    · have hk1 : k1 = k := by simpa using h
      subst hk1
      simp [mapSet, h, mapGet, hb]
    · have h' : (k1 == k) = false := by simpa using h
      simp [mapSet, h', mapGet, ih]

/-- C9: on an `ObjectMeta` whose annotations map is non-nil, `AddAnnotations`
sets the `vmoperator.vmware.com/version` annotation to `v1` and leaves every
other annotation entry unchanged; on an `ObjectMeta` with no annotations (the
nil map `GetAnnotations` returns for a fresh object) the map write faults, so
`AddAnnotations` is only safe under the non-nil-annotations precondition. -/
theorem addAnnotations_spec :
    (∀ (m : ObjectMeta) (a : List (String × String)), m.annotations = some a →
      ∃ a', AddAnnotations m = some { m with annotations := some a' } ∧
        mapGet a' VmOperatorVersionKey = some "v1" ∧
        ∀ k, k ≠ VmOperatorVersionKey → mapGet a' k = mapGet a k) ∧
    (∀ m : ObjectMeta, m.annotations = none → AddAnnotations m = none) := by
  constructor
  · intro m a h
    refine ⟨mapSet a VmOperatorVersionKey "v1", ?_, mapGet_mapSet_self a _ _, ?_⟩
    · unfold AddAnnotations GetAnnotations
      rw [h]
    · intro k hk
      exact mapGet_mapSet_ne a VmOperatorVersionKey "v1" k hk
  · intro m h
    unfold AddAnnotations GetAnnotations
    rw [h]

/-- Witness for C9: a concrete object with one pre-existing annotation, and a
concrete fresh object with the nil map. -/
theorem addAnnotations_spec_witness :
    (∃ a', AddAnnotations { name := "vm", annotations := some [("a", "b")] }
        = some { name := "vm", annotations := some a' } ∧
      mapGet a' VmOperatorVersionKey = some "v1" ∧ mapGet a' "a" = some "b") ∧
    AddAnnotations { name := "vm", annotations := none } = none :=
  have h := addAnnotations_spec
  ⟨match h.1 { name := "vm", annotations := some [("a", "b")] } [("a", "b")] rfl with
    | ⟨a', h1, h2, h3⟩ =>
      ⟨a', h1, h2, by rw [h3 "a" (by decide)]; rfl⟩,
   h.2 { name := "vm", annotations := none } rfl⟩

theorem mem_deleteCS (nm : String) (l : List ContentSource) (x : ContentSource)
    (h : x ∈ deleteCS nm l) : x ∈ l ∧ x.name ≠ nm := by
  unfold deleteCS at h
  rw [List.mem_filter] at h
  exact ⟨h.1, by simpa using h.2⟩

theorem mem_deleteStale (u : String) (listed : List ContentSource) :
    ∀ (l : List ContentSource) (x : ContentSource), x ∈ deleteStale u listed l →
      x ∈ l ∧ ∀ cs ∈ listed, cs.name ≠ u → x.name ≠ cs.name := by
  induction listed with
  | nil =>
    intro l x h
    refine ⟨h, ?_⟩
    intro cs hcs
    simp at hcs
  | cons c rest ih =>
    intro l x h
    have h0 : x ∈ deleteStale u rest (if c.name == u then l else deleteCS c.name l) := h
    have h1 := ih (if c.name == u then l else deleteCS c.name l) x h0
    by_cases hcu : (c.name == u) = true
    · rw [if_pos hcu] at h1
      refine ⟨h1.1, ?_⟩
      intro cs hcs hne
      rcases List.mem_cons.mp hcs with hcs | hcs
      · subst hcs
        exact absurd (by simpa using hcu) hne
      · exact h1.2 cs hcs hne
    · rw [if_neg hcu] at h1
      have h2 := mem_deleteCS c.name l x h1.1
      refine ⟨h2.1, ?_⟩
      intro cs hcs hne
      rcases List.mem_cons.mp hcs with hcs | hcs
      · subst hcs
        exact h2.2
      · exact h1.2 cs hcs hne

theorem mem_upsertCS (cs : ContentSource) (l : List ContentSource) (x : ContentSource)
    (h : x ∈ upsertCS cs l) : x = cs ∨ (x ∈ l ∧ x.name ≠ cs.name) := by
  unfold upsertCS at h
  by_cases ha : l.any (fun c => c.name == cs.name) = true
  · rw [if_pos ha] at h
    rw [List.mem_map] at h
    obtain ⟨c, hc, hcx⟩ := h
    by_cases hcn : (c.name == cs.name) = true
    · rw [if_pos hcn] at hcx
      left
      exact hcx.symm
    · rw [if_neg hcn] at hcx
      right
      rw [← hcx]
      exact ⟨hc, by simpa using hcn⟩
  · rw [if_neg ha] at h
    rw [List.mem_append] at h
    rcases h with h | h
    · right
      refine ⟨h, ?_⟩
      intro heq
      apply ha
      rw [List.any_eq_true]
      exact ⟨x, h, by simp [heq]⟩
    · left
      simpa using h

/-- C10: after `ConfigMapReconciler.ReconcileNormal`, every ContentSource
remaining in the store that carries the `ContentSourceType=TKGContentSource`
label has the ConfigMap's ContentSource value as its name (all other labeled
ones having been deleted); and when that value is empty, the call creates no
ContentSource, ContentLibraryProvider or ContentSourceBinding. -/
theorem reconcileNormal_spec (clUUID : String) (s : ClusterState) :
    (∀ cs ∈ (ReconcileNormal clUUID s).contentSources,
        hasTKGLabel cs = true → cs.name = clUUID) ∧
    (clUUID = "" →
      (ReconcileNormal clUUID s).clProviders = s.clProviders ∧
      (ReconcileNormal clUUID s).csBindings = s.csBindings ∧
      ∀ cs ∈ (ReconcileNormal clUUID s).contentSources, cs ∈ s.contentSources) := by
  constructor
  · intro x hx hlab
    unfold ReconcileNormal at hx
    by_cases hu : (clUUID == "") = true
    · rw [if_pos hu] at hx
      have h1 := mem_deleteStale clUUID (s.contentSources.filter hasTKGLabel)
        s.contentSources x hx
      have hxl : x ∈ s.contentSources.filter hasTKGLabel :=
        List.mem_filter.mpr ⟨h1.1, hlab⟩
      by_contra hne
      exact (h1.2 x hxl hne) rfl
    · rw [if_neg hu] at hx
      have hx2 : x ∈ upsertCS
          ⟨clUUID, [(TKGContentSourceLabelKey, TKGContentSourceLabelValue)]⟩
          (deleteStale clUUID (s.contentSources.filter hasTKGLabel) s.contentSources) := hx
      rcases mem_upsertCS _ _ _ hx2 with h | ⟨hmem, hne⟩
      · rw [h]
      · have h1 := mem_deleteStale clUUID (s.contentSources.filter hasTKGLabel)
          s.contentSources x hmem
        have hxl : x ∈ s.contentSources.filter hasTKGLabel :=
          List.mem_filter.mpr ⟨h1.1, hlab⟩
        by_contra hnam
        exact (h1.2 x hxl hnam) rfl
  · intro hu
    have hub : (clUUID == "") = true := by simp [hu]
    unfold ReconcileNormal
    rw [if_pos hub]
    refine ⟨rfl, rfl, ?_⟩
    intro x hx
    exact (mem_deleteStale clUUID (s.contentSources.filter hasTKGLabel)
      s.contentSources x hx).1

/-- Witness for C10: a store holding a stale TKG-labeled ContentSource; the
labeled source remaining after a reconcile with UUID `lib-1` is named
`lib-1`, and a reconcile with an empty value creates nothing. -/
theorem reconcileNormal_spec_witness :
    ((⟨"lib-1", [(TKGContentSourceLabelKey, TKGContentSourceLabelValue)]⟩ :
        ContentSource).name = "lib-1") ∧
    ((ReconcileNormal ""
        ⟨[⟨"old-lib", [(TKGContentSourceLabelKey, TKGContentSourceLabelValue)]⟩], [], [],
          [⟨"ns1", [(UserWorkloadNamespaceLabel, "c1")]⟩]⟩).clProviders = [] ∧
     (ReconcileNormal ""
        ⟨[⟨"old-lib", [(TKGContentSourceLabelKey, TKGContentSourceLabelValue)]⟩], [], [],
          [⟨"ns1", [(UserWorkloadNamespaceLabel, "c1")]⟩]⟩).csBindings = []) :=
  have h1 := reconcileNormal_spec "lib-1"
    ⟨[⟨"old-lib", [(TKGContentSourceLabelKey, TKGContentSourceLabelValue)]⟩], [], [],
      [⟨"ns1", [(UserWorkloadNamespaceLabel, "c1")]⟩]⟩
  have h2 := reconcileNormal_spec ""
    ⟨[⟨"old-lib", [(TKGContentSourceLabelKey, TKGContentSourceLabelValue)]⟩], [], [],
      [⟨"ns1", [(UserWorkloadNamespaceLabel, "c1")]⟩]⟩
  ⟨h1.1 ⟨"lib-1", [(TKGContentSourceLabelKey, TKGContentSourceLabelValue)]⟩
      (by decide) (by decide),
   (h2.2 rfl).1, (h2.2 rfl).2.1⟩

end VMOperator
